import Mathlib

/-!
Verification of the task-registry bootstrap
`port/platform/common/automation/tasks/__init__.py`.

The source file builds an `invoke` `Collection` called `ns`, populates an
`invoke` `Config` called `cfg` with three keys derived from the `u_utils`
utility module, attaches the configuration to the namespace, and adds the
seven platform task collections in a fixed order.
-/

namespace Ubxlib

/-- Modelled from the spec: the shared utility module `u_utils` (not included
in the source fragment) provides two resolved filesystem paths, the
repository root directory `UBXLIB_DIR` and the automation directory
`AUTOMATION_DIR`. -/
structure UUtils where
  UBXLIB_DIR : String
  AUTOMATION_DIR : String
  deriving DecidableEq

/-- Modelled from the spec: the seven task-collection modules (not included in
the source fragment) each provide a ready-made set of named tasks; a task set
is modelled as the list of its task names.  The environment record gathers
the utility module together with these seven module contents, which is
everything the bootstrap file reads. -/
structure Env where
  u_utils : UUtils
  nrfconnect : List String
  nrf5 : List String
  stm32cube : List String
  esp_idf : List String
  arduino : List String
  automation : List String
  linux : List String
  deriving DecidableEq

/-- Configuration mapping, option name to value, insertion ordered. -/
abbrev ConfigMap := List (String × String)

/-- Embedding of source lines 7-10: the `Config` object `cfg` after the three
key assignments `root_dir`, `vscode_dir` and `cfg_dir`. -/
def cfg (u : UUtils) : ConfigMap :=
  [("root_dir", u.UBXLIB_DIR),
   ("vscode_dir", u.UBXLIB_DIR ++ "/.vscode"),
   ("cfg_dir", u.AUTOMATION_DIR)]

/-- Modelled from the spec: an `invoke` `Collection` (the library is not part
of this repository) is an aggregator holding a configuration mapping and a
mapping from collection name to its set of tasks. -/
structure Collection where
  config : ConfigMap
  collections : List (String × List String)
  deriving DecidableEq

/-- Empty collection, the result of the `Collection()` call on source line 5. -/
def Collection.empty : Collection :=
  { config := [], collections := [] }

/-- Modelled from the spec: `Collection.configure` attaches the given
configuration mapping to the namespace, which then owns it. -/
def Collection.configure (c : Collection) (conf : ConfigMap) : Collection :=
  { c with config := conf }

/-- Modelled from the spec: `Collection.add_collection` registers a named
task collection in the namespace, after those already present. -/
def Collection.add_collection (c : Collection) (name : String)
    (tasks : List String) : Collection :=
  { c with collections := c.collections ++ [(name, tasks)] }

/-- One statement of the bootstrap acting on the namespace under
construction: either the `configure` call or one `add_collection` call. -/
inductive Step where
  | configure (conf : ConfigMap)
  | add_collection (name : String) (tasks : List String)

/-- Interpretation of a single bootstrap statement. -/
def applyStep (c : Collection) : Step → Collection
  | .configure conf => c.configure conf
  | .add_collection n t => c.add_collection n t

/-- Embedding of source lines 12-19 as the ordered statement list: first the
`ns.configure(cfg)` call, then the seven `ns.add_collection(...)` calls in
source order, each collection named after its module. -/
def buildSteps (env : Env) : List Step :=
  [Step.configure (cfg env.u_utils),
   Step.add_collection "nrfconnect" env.nrfconnect,
   Step.add_collection "nrf5" env.nrf5,
   Step.add_collection "stm32cube" env.stm32cube,
   Step.add_collection "esp_idf" env.esp_idf,
   Step.add_collection "arduino" env.arduino,
   Step.add_collection "automation" env.automation,
   Step.add_collection "linux" env.linux]

/-- Running a list of bootstrap statements from a given namespace state. -/
def runSteps (c : Collection) (steps : List Step) : Collection :=
  steps.foldl applyStep c

/-- The root namespace `ns` produced by the bootstrap: the statement sequence
of source lines 5-19 run on the freshly created empty collection. -/
def ns (env : Env) : Collection :=
  runSteps Collection.empty (buildSteps env)

/-- Names of the registered sub-collections, in registration order. -/
def collectionNames (c : Collection) : List String :=
  c.collections.map Prod.fst

/-- The fixed list of the seven expected collection names. -/
def sevenNames : List String :=
  ["nrfconnect", "nrf5", "stm32cube", "esp_idf", "arduino", "automation", "linux"]

theorem ns_collections_eq (env : Env) :
    (ns env).collections =
      [("nrfconnect", env.nrfconnect), ("nrf5", env.nrf5),
       ("stm32cube", env.stm32cube), ("esp_idf", env.esp_idf),
       ("arduino", env.arduino), ("automation", env.automation),
       ("linux", env.linux)] := rfl

theorem ns_config_eq (env : Env) : (ns env).config = cfg env.u_utils := rfl

/-- Modelled from the spec: module import may fail, in which case the error
propagates as a fatal startup failure.  Each external input of the bootstrap
is therefore either a resolved value or an import/resolution error message.
The fields appear in the import order of source lines 2-3. -/
structure EnvE where
  u_utils : Except String UUtils
  nrfconnect : Except String (List String)
  nrf5 : Except String (List String)
  stm32cube : Except String (List String)
  esp_idf : Except String (List String)
  arduino : Except String (List String)
  automation : Except String (List String)
  linux : Except String (List String)

/-- Embedding of the whole module initialization with fallible imports: the
module imports of source lines 2-3 are resolved in order, any failure aborting
construction with that error, and only then is the namespace of source
lines 5-19 built.  No partial namespace can be returned. -/
def nsE (e : EnvE) : Except String Collection := do
  let u ← e.u_utils
  let m1 ← e.nrfconnect
  let m2 ← e.nrf5
  let m3 ← e.stm32cube
  let m4 ← e.esp_idf
  let m5 ← e.arduino
  let m6 ← e.automation
  let m7 ← e.linux
  pure (ns ⟨u, m1, m2, m3, m4, m5, m6, m7⟩)

/-- Modelled from the spec: the ambient process state at startup.  Beyond the
inputs the bootstrap actually reads (the `env` field), a process also carries
command-line arguments, environment variables and a filesystem; the source
statements reference none of these. -/
structure World where
  env : Env
  argv : List String
  env_vars : List (String × String)
  file_contents : List (String × String)
  deriving DecidableEq

/-- The bootstrap as run inside a full process state: the statement sequence
of source lines 5-19 mentions only the utility module's values and the
seven imported modules, all carried by the `env` field of the world. -/
def nsW (w : World) : Collection :=
  ns w.env

/-- One bootstrap statement acting on the pair of the ambient world and the
namespace under construction: every statement of source lines 12-19 reads or
writes only the namespace (and the already-computed `cfg`), leaving the
world component untouched. -/
def stepWorld (s : World × Collection) (st : Step) : World × Collection :=
  (s.1, applyStep s.2 st)

/-- The bootstrap with explicit state passing of the ambient world through
every statement. -/
def nsRun (w : World) : World × Collection :=
  (buildSteps w.env).foldl stepWorld (w, Collection.empty)

theorem foldl_stepWorld_fst (steps : List Step) (s : World × Collection) :
    (steps.foldl stepWorld s).1 = s.1 := by
  induction steps generalizing s with
  | nil => rfl
  | cons st rest ih => simpa [List.foldl, stepWorld] using ih (stepWorld s st)

theorem foldl_stepWorld_snd (steps : List Step) (s : World × Collection) :
    (steps.foldl stepWorld s).2 = steps.foldl applyStep s.2 := by
  induction steps generalizing s with
  | nil => rfl
  | cons st rest ih => simpa [List.foldl, stepWorld] using ih (stepWorld s st)

/-- Concrete example environment used by witnesses: resolved utility paths
and one task per platform collection. -/
def envEx : Env :=
  { u_utils := { UBXLIB_DIR := "/home/user/ubxlib", AUTOMATION_DIR := "/home/user/ubxlib/port/platform/common/automation" },
    nrfconnect := ["build"], nrf5 := ["flash"], stm32cube := ["build"],
    esp_idf := ["build"], arduino := ["check"], automation := ["test"],
    linux := ["run"] }

/-- Claim C1: after construction with valid inputs, the namespace contains
exactly the seven collection names nrfconnect, nrf5, stm32cube, esp_idf,
arduino, automation and linux, in that order and no others, and each
registered collection is non-empty. -/
theorem ns_exactly_seven_nonempty_collections (env : Env)
    (h1 : env.nrfconnect ≠ []) (h2 : env.nrf5 ≠ []) (h3 : env.stm32cube ≠ [])
    (h4 : env.esp_idf ≠ []) (h5 : env.arduino ≠ []) (h6 : env.automation ≠ [])
    (h7 : env.linux ≠ []) :
    collectionNames (ns env) = sevenNames ∧
    ∀ p ∈ (ns env).collections, p.2 ≠ [] := by
  refine ⟨rfl, ?_⟩
  intro p hp
  rw [ns_collections_eq] at hp
  simp only [List.mem_cons, List.not_mem_nil, or_false] at hp
  rcases hp with h | h | h | h | h | h | h <;> subst h <;> assumption

/-- Witness for C1 at the concrete environment. -/
theorem ns_exactly_seven_nonempty_collections_witness :
    collectionNames (ns envEx) = sevenNames ∧
    ∀ p ∈ (ns envEx).collections, p.2 ≠ [] :=
  ns_exactly_seven_nonempty_collections envEx (by decide) (by decide)
    (by decide) (by decide) (by decide) (by decide) (by decide)

/-- Claim C2: after construction, the configuration value under the key
`vscode_dir` equals the value under the key `root_dir` concatenated with
the string `/.vscode`. -/
theorem vscode_dir_is_root_dir_concat (env : Env) :
    ((ns env).config.lookup "vscode_dir") =
      ((ns env).config.lookup "root_dir").map (fun s => s ++ "/.vscode") := rfl

/-- Claim C4: after construction, the configuration contains the keys
`root_dir`, `vscode_dir` and `cfg_dir`, and when the utility paths are
non-empty strings (resolved paths), each stored value is a non-empty
string. -/
theorem cfg_keys_present_and_nonempty (env : Env)
    (hr : env.u_utils.UBXLIB_DIR ≠ "") (ha : env.u_utils.AUTOMATION_DIR ≠ "") :
    (∃ r, (ns env).config.lookup "root_dir" = some r ∧ r ≠ "") ∧
    (∃ v, (ns env).config.lookup "vscode_dir" = some v ∧ v ≠ "") ∧
    (∃ d, (ns env).config.lookup "cfg_dir" = some d ∧ d ≠ "") := by
  refine ⟨⟨env.u_utils.UBXLIB_DIR, rfl, hr⟩,
          ⟨env.u_utils.UBXLIB_DIR ++ "/.vscode", rfl, ?_⟩,
          ⟨env.u_utils.AUTOMATION_DIR, rfl, ha⟩⟩
  intro h
  have h2 := congrArg String.length h
  simp [String.length_append] at h2
  exact absurd h2.2 (by decide)

/-- Witness for C4 at the concrete environment. -/
theorem cfg_keys_present_and_nonempty_witness :
    (∃ r, (ns envEx).config.lookup "root_dir" = some r ∧ r ≠ "") ∧
    (∃ v, (ns envEx).config.lookup "vscode_dir" = some v ∧ v ≠ "") ∧
    (∃ d, (ns envEx).config.lookup "cfg_dir" = some d ∧ d ≠ "") :=
  cfg_keys_present_and_nonempty envEx (by decide) (by decide)

/-- Claim C5: construction is idempotent, given identical environment state
two runs of the construction produce namespaces with identical contents. -/
theorem ns_construction_idempotent (e1 e2 : Env) (h : e1 = e2) :
    ns e1 = ns e2 := by rw [h]

/-- Witness for C5: two runs over the concrete environment agree. -/
theorem ns_construction_idempotent_witness : ns envEx = ns envEx :=
  ns_construction_idempotent envEx envEx rfl

/-- Claim C6: the configuration attached at startup is exactly the built
`cfg` mapping, `configure` stores the given mapping itself without copying
or transforming it, and no later step of the construction (the
`add_collection` calls are the only operations performed afterwards)
changes any configuration value. -/
theorem cfg_immutable_after_startup (env : Env) :
    (ns env).config = cfg env.u_utils ∧
    (∀ c conf, (Collection.configure c conf).config = conf) ∧
    (∀ c n t, (Collection.add_collection c n t).config = c.config) :=
  ⟨rfl, fun _ _ => rfl, fun _ _ _ => rfl⟩

/-- Claim C7: `root_dir` is exactly the utility module's `UBXLIB_DIR` and
`cfg_dir` is exactly its `AUTOMATION_DIR`, with no transformation applied
to either. -/
theorem cfg_paths_taken_from_u_utils (env : Env) :
    (ns env).config.lookup "root_dir" = some env.u_utils.UBXLIB_DIR ∧
    (ns env).config.lookup "cfg_dir" = some env.u_utils.AUTOMATION_DIR :=
  ⟨rfl, rfl⟩

/-- Fallible environment in which the utility-module import fails, used by
the witness below. -/
def envEBad : EnvE :=
  { u_utils := Except.error "cannot locate repository root",
    nrfconnect := Except.ok ["build"], nrf5 := Except.ok ["flash"],
    stm32cube := Except.ok ["build"], esp_idf := Except.ok ["build"],
    arduino := Except.ok ["check"], automation := Except.ok ["test"],
    linux := Except.ok ["run"] }

/-- Fallible environment in which every import succeeds with the contents of
the concrete example environment. -/
def envEGood : EnvE :=
  { u_utils := Except.ok envEx.u_utils,
    nrfconnect := Except.ok envEx.nrfconnect, nrf5 := Except.ok envEx.nrf5,
    stm32cube := Except.ok envEx.stm32cube, esp_idf := Except.ok envEx.esp_idf,
    arduino := Except.ok envEx.arduino, automation := Except.ok envEx.automation,
    linux := Except.ok envEx.linux }

/-- Claim C3: an error of the path-resolution utility propagates out of
construction unchanged, and a successful construction certifies that every
module import succeeded and the result is complete: it carries all seven
sub-collections and all three configuration keys, so no incomplete namespace
is ever observable. -/
theorem nsE_error_propagation_completeness (e : EnvE) :
    (∀ m, e.u_utils = Except.error m → nsE e = Except.error m) ∧
    (∀ c, nsE e = Except.ok c →
      ((∃ u, e.u_utils = Except.ok u) ∧ (∃ x, e.nrfconnect = Except.ok x) ∧
       (∃ x, e.nrf5 = Except.ok x) ∧ (∃ x, e.stm32cube = Except.ok x) ∧
       (∃ x, e.esp_idf = Except.ok x) ∧ (∃ x, e.arduino = Except.ok x) ∧
       (∃ x, e.automation = Except.ok x) ∧ (∃ x, e.linux = Except.ok x)) ∧
      collectionNames c = sevenNames ∧
      (c.config.lookup "root_dir").isSome ∧
      (c.config.lookup "vscode_dir").isSome ∧
      (c.config.lookup "cfg_dir").isSome) := by
  obtain ⟨u, m1, m2, m3, m4, m5, m6, m7⟩ := e
  constructor
  · intro m hm
    subst hm
    rfl
  · intro c hc
    rcases u with m | u
    · exact absurd hc (fun h => Except.noConfusion h)
    rcases m1 with m | x1
    · exact absurd hc (fun h => Except.noConfusion h)
    rcases m2 with m | x2
    · exact absurd hc (fun h => Except.noConfusion h)
    rcases m3 with m | x3
    · exact absurd hc (fun h => Except.noConfusion h)
    rcases m4 with m | x4
    · exact absurd hc (fun h => Except.noConfusion h)
    rcases m5 with m | x5
    · exact absurd hc (fun h => Except.noConfusion h)
    rcases m6 with m | x6
    · exact absurd hc (fun h => Except.noConfusion h)
    rcases m7 with m | x7
    · exact absurd hc (fun h => Except.noConfusion h)
    have hcc : c = ns ⟨u, x1, x2, x3, x4, x5, x6, x7⟩ := (Except.ok.inj hc).symm
    subst hcc
    exact ⟨⟨⟨u, rfl⟩, ⟨x1, rfl⟩, ⟨x2, rfl⟩, ⟨x3, rfl⟩, ⟨x4, rfl⟩, ⟨x5, rfl⟩,
            ⟨x6, rfl⟩, ⟨x7, rfl⟩⟩, rfl, rfl, rfl, rfl⟩

/-- Witness for C3: the theorem applied to a failing and to a succeeding
concrete fallible environment. -/
theorem nsE_error_propagation_completeness_witness :
    nsE envEBad = Except.error "cannot locate repository root" ∧
    collectionNames (ns envEx) = sevenNames :=
  ⟨(nsE_error_propagation_completeness envEBad).1 "cannot locate repository root" rfl,
   ((nsE_error_propagation_completeness envEGood).2 (ns envEx) rfl).2.1⟩

/-- Claim C8: whenever a statement of the construction sequence is an
`add_collection` call, the namespace state just before that statement
already carries all three configuration keys: the configuration is fully
populated and attached before any of the seven sub-collections is added. -/
theorem cfg_attached_before_any_collection (env : Env) (i : Nat)
    (hi : i < (buildSteps env).length)
    (hadd : ∃ n t, (buildSteps env).get ⟨i, hi⟩ = Step.add_collection n t) :
    (((runSteps Collection.empty ((buildSteps env).take i)).config.lookup "root_dir").isSome ∧
     ((runSteps Collection.empty ((buildSteps env).take i)).config.lookup "vscode_dir").isSome ∧
     ((runSteps Collection.empty ((buildSteps env).take i)).config.lookup "cfg_dir").isSome) := by
  have hi8 : i < 8 := hi
  rcases i with _ | _ | _ | _ | _ | _ | _ | _ | i
  · obtain ⟨n, t, h⟩ := hadd
    exact Step.noConfusion h
  · exact ⟨rfl, rfl, rfl⟩
  · exact ⟨rfl, rfl, rfl⟩
  · exact ⟨rfl, rfl, rfl⟩
  · exact ⟨rfl, rfl, rfl⟩
  · exact ⟨rfl, rfl, rfl⟩
  · exact ⟨rfl, rfl, rfl⟩
  · exact ⟨rfl, rfl, rfl⟩
  · exact absurd hi8 (by omega)

/-- Witness for C8 at the concrete environment and the first
`add_collection` statement. -/
theorem cfg_attached_before_any_collection_witness :
    (((runSteps Collection.empty ((buildSteps envEx).take 1)).config.lookup "root_dir").isSome ∧
     ((runSteps Collection.empty ((buildSteps envEx).take 1)).config.lookup "vscode_dir").isSome ∧
     ((runSteps Collection.empty ((buildSteps envEx).take 1)).config.lookup "cfg_dir").isSome) :=
  cfg_attached_before_any_collection envEx 1 (by decide)
    ⟨"nrfconnect", ["build"], rfl⟩

/-- Claim C9: the constructed namespace is a deterministic function of
exactly the declared inputs (the two utility paths and the seven module
contents): two process states agreeing on those inputs yield equal
namespaces, whatever their command-line arguments, environment variables
and filesystem contents. -/
theorem ns_deterministic_in_declared_inputs (w1 w2 : World)
    (h : w1.env = w2.env) : nsW w1 = nsW w2 := by
  unfold nsW
  rw [h]

/-- Concrete process state with arguments, environment variables and files. -/
def worldA : World :=
  { env := envEx, argv := ["--list"], env_vars := [("HOME", "/root")],
    file_contents := [("notes.txt", "hello")] }

/-- Concrete process state agreeing with `worldA` only on the declared
inputs. -/
def worldB : World :=
  { env := envEx, argv := [], env_vars := [], file_contents := [] }

/-- Witness for C9: two concrete process states differing in everything but
the declared inputs produce the same namespace. -/
theorem ns_deterministic_in_declared_inputs_witness : nsW worldA = nsW worldB :=
  ns_deterministic_in_declared_inputs worldA worldB rfl

/-- Claim C10: running the construction with the ambient world threaded
through every statement leaves the world untouched (the utility values and
module contents are read, never written) while producing exactly the root
namespace. -/
theorem ns_construction_frame (w : World) :
    (nsRun w).1 = w ∧ (nsRun w).2 = ns w.env :=
  ⟨foldl_stepWorld_fst _ _, foldl_stepWorld_snd _ _⟩

end Ubxlib
